/-
  Verification of the IVtestsuite control core against its specification.

  Shallow embedding of the Python sources:
  - src/ivtest/run_manager.py       (RunState, VALID_TRANSITIONS, RunManager)
  - src/smu_keysight_b2902.py       (KeysightB2902Controller)
  - src/smu_keysight_b2901.py       (KeysightB2901Controller)
  - src/smu_keithley_2400.py        (Keithley2400Controller)
  - src/smu_factory.py              (create_smu_from_string)
  - src/ivtest/smu_client.py        (SMUClient)
  - src/ivtest/arduino_relays.py    (RelayBoard / MultiBoardRelayController)
  - src/ivtest/protocol_engine.py   (ProtocolEngine)

  Conventions: Python floats are modelled as rationals (ℚ); Python datetimes
  as natural-number timestamps; exceptions as Option/Except error values;
  mutation as explicit state passing.  Each definition carries a comment
  pointing at the source lines it translates.
-/
import Mathlib

namespace IVTest

/-! ## Run manager state machine (src/ivtest/run_manager.py) -/

/-- Model of `RunState` enum, run_manager.py lines 19-25. -/
inductive RunState where
  | IDLE
  | ARMED
  | RUNNING
  | ABORTED
  | ERROR
deriving DecidableEq, Repr

/-- Model of `VALID_TRANSITIONS` dict, run_manager.py lines 29-35. -/
def validTransitions : RunState → List RunState
  | .IDLE => [.ARMED]
  | .ARMED => [.RUNNING, .IDLE]
  | .RUNNING => [.IDLE, .ABORTED, .ERROR]
  | .ABORTED => [.IDLE]
  | .ERROR => [.IDLE]

/-- The mutable fields of a `RunManager` instance (run_manager.py lines 55-71).
    `runStartTime` models the `_run_start_time` datetime as an optional
    timestamp; `abortRequested` models the `threading.Event`. -/
structure RunManager where
  state : RunState
  runStartTime : Option Nat
  abortRequested : Bool
  errorMessage : Option String
  stepsCompleted : Nat
  totalSteps : Nat
deriving DecidableEq, Repr

/-- Model of `RunManager._can_transition`, run_manager.py lines 97-99. -/
def canTransition (rm : RunManager) (newState : RunState) : Bool :=
  (validTransitions rm.state).contains newState

/-- Model of `RunManager.transition_to`, run_manager.py lines 101-137.  `now` is the
    value `datetime.now()` would return when entering RUNNING.  Returns the
    updated manager and the boolean result. -/
def transitionTo (rm : RunManager) (newState : RunState)
    (errorMsg : Option String) (now : Nat) : RunManager × Bool :=
  if ¬ canTransition rm newState then (rm, false)
  else
    let rm1 := { rm with state := newState }
    let rm2 :=
      if newState = .RUNNING then
        { rm1 with runStartTime := some now, abortRequested := false }
      else if newState = .ARMED then
        { rm1 with abortRequested := false }
      else if newState = .ERROR then
        { rm1 with errorMessage := errorMsg }
      else if newState = .IDLE then
        { rm1 with runStartTime := none, errorMessage := none,
                   stepsCompleted := 0, totalSteps := 0 }
      else rm1
    (rm2, true)

/-- Model of `RunManager.arm`, run_manager.py lines 139-141. -/
def RunManager.arm (rm : RunManager) (now : Nat) : RunManager × Bool :=
  transitionTo rm .ARMED none now

/-- Model of `RunManager.start`, run_manager.py lines 143-145. -/
def RunManager.start (rm : RunManager) (now : Nat) : RunManager × Bool :=
  transitionTo rm .RUNNING none now

/-- Model of `RunManager.complete`, run_manager.py lines 147-149. -/
def RunManager.complete (rm : RunManager) (now : Nat) : RunManager × Bool :=
  transitionTo rm .IDLE none now

/-- The callback loop inside `RunManager.abort`, run_manager.py lines 162-166.
    A shutdown callback acts on an external world `W` and reports whether it
    raised; the loop catches every exception and keeps going, so every
    callback in the list is invoked.  Returns the final world and the
    per-callback raised-flags (one entry per registered callback). -/
def runShutdownCallbacks {W : Type} : List (W → W × Bool) → W → W × List Bool
  | [], w => (w, [])
  | cb :: rest, w =>
    let step := cb w
    let tail := runShutdownCallbacks rest step.1
    (tail.1, step.2 :: tail.2)

/-- The state-field effect of `RunManager.abort`, run_manager.py lines
    151-181: set the abort flag; if RUNNING force to ABORTED; then, only if
    the state is now ABORTED, ARMED or IDLE, force to IDLE and clear the
    run-start time.  (The abort flag is deliberately not cleared.) -/
def abortRM (rm : RunManager) : RunManager :=
  let rm1 := { rm with abortRequested := true }
  let rm2 := if rm1.state = .RUNNING then { rm1 with state := .ABORTED } else rm1
  if rm2.state = .ABORTED ∨ rm2.state = .ARMED ∨ rm2.state = .IDLE then
    { rm2 with state := .IDLE, runStartTime := none }
  else rm2

/-- Model of `RunManager.abort`, run_manager.py lines 151-181, in full: sets the
    flag, runs every shutdown callback (exceptions caught), applies the
    state logic, and returns True. -/
def RunManager.abort {W : Type} (rm : RunManager) (cbs : List (W → W × Bool))
    (w : W) : RunManager × Bool × W × List Bool :=
  let rm1 := { rm with abortRequested := true }
  let cbRun := runShutdownCallbacks cbs w
  let rm2 := if rm1.state = .RUNNING then { rm1 with state := .ABORTED } else rm1
  let rm3 :=
    if rm2.state = .ABORTED ∨ rm2.state = .ARMED ∨ rm2.state = .IDLE then
      { rm2 with state := .IDLE, runStartTime := none }
    else rm2
  (rm3, true, cbRun.1, cbRun.2)

/-- Model of `RunManager.set_error`, run_manager.py lines 183-185. -/
def RunManager.setError (rm : RunManager) (message : String) (now : Nat) :
    RunManager × Bool :=
  transitionTo rm .ERROR (some message) now

/-- Model of `RunManager.reset`, run_manager.py lines 187-194. -/
def RunManager.reset (rm : RunManager) (now : Nat) : RunManager × Bool :=
  if rm.state = .ERROR ∨ rm.state = .ABORTED then
    transitionTo rm .IDLE none now
  else if rm.state = .IDLE then (rm, true)
  else (rm, false)

/-- The public operations of the run manager, for stating trace
    properties.  `abortOp` covers `abort()` (its callbacks act on a
    separate world and do not touch the manager's fields). -/
inductive RMOp where
  | armOp
  | startOp
  | completeOp
  | abortOp
  | setErrorOp (msg : String)
  | resetOp
  | transitionOp (s : RunState) (msg : Option String)
deriving Repr

/-- Apply one public operation to the manager; `now` is the external clock
    at that call.  Direct transcription of the corresponding methods. -/
def applyOp (rm : RunManager) (now : Nat) : RMOp → RunManager × Bool
  | .armOp => rm.arm now
  | .startOp => rm.start now
  | .completeOp => rm.complete now
  | .abortOp => (abortRM rm, true)
  | .setErrorOp msg => rm.setError msg now
  | .resetOp => rm.reset now
  | .transitionOp s msg => transitionTo rm s msg now

/-- Run a list of timed operations in order. -/
def runOps (rm : RunManager) : List (RMOp × Nat) → RunManager
  | [] => rm
  | (op, now) :: rest => runOps (applyOp rm now op).1 rest

/-- A step of a trace successfully enters ARMED or RUNNING (the only
    condition under which transition_to clears the abort flag). -/
def entersArmedOrRunning (rm : RunManager) (op : RMOp) (now : Nat) : Prop :=
  (applyOp rm now op).2 = true ∧
    ((applyOp rm now op).1.state = .ARMED ∨ (applyOp rm now op).1.state = .RUNNING)

/-- No step along the trace successfully enters ARMED or RUNNING. -/
def noArmStartAlong : RunManager → List (RMOp × Nat) → Prop
  | _, [] => True
  | rm, (op, now) :: rest =>
      ¬ entersArmedOrRunning rm op now ∧
        noArmStartAlong (applyOp rm now op).1 rest

/-! ## Instrument driver layer (src/smu_base.py and the three drivers) -/

/-- Model of `SMUState` enum, smu_base.py lines 13-20. -/
inductive SMUState where
  | OFF
  | IDLE
  | CONFIGURED
  | ARMED
  | RUNNING
  | ERROR
deriving DecidableEq, Repr

/-- The fields of a driver instance relevant to commanding and safety
    (smu_base.py lines 37-51 plus the per-driver `software_current_limit`
    and write log).  `writes` records the wire-level `resource.write`
    calls in order; Python floats are rationals. -/
structure Driver where
  state : SMUState
  mock : Bool
  softwareCurrentLimit : Option ℚ
  lastSetV : ℚ
  lastSetI : ℚ
  sourceMode : String
  outputEnabled : Bool
  /-- Abstraction of the health of the VISA session: wire-level writes and
      queries raise when this is false. -/
  wireOk : Bool
  writes : List String
deriving DecidableEq, Repr

/-- Model of `_check_current_limit`, identical in all three drivers
    (smu_keysight_b2902.py lines 81-85, smu_keysight_b2901.py lines 43-47,
    smu_keithley_2400.py lines 56-60).  Returns `true` when the check
    raises the safety ValueError: a limit is set and
    `abs(amps) > limit * 1.001`. -/
def checkCurrentLimit (c : Driver) (amps : ℚ) : Bool :=
  match c.softwareCurrentLimit with
  | some l => |amps| > l * (1001 / 1000)
  | none => false

/-- Model of `set_software_current_limit`, e.g. smu_keysight_b2902.py lines 87-91:
    stores `abs(limit)` (or clears the limit on None). -/
def setSoftwareCurrentLimit (c : Driver) (limit : Option ℚ) : Driver :=
  { c with softwareCurrentLimit := limit.map (fun l => |l|) }

/-- The legal-state set of `set_current` (same in all three drivers). -/
def setCurrentAllowedStates : List SMUState :=
  [.IDLE, .CONFIGURED, .ARMED, .RUNNING, .ERROR]

/-- Model of `KeysightB2902Controller.set_current`, smu_keysight_b2902.py lines
    240-260: require_state, then the software-ceiling check (raising before
    any write), then the mock or wire path.  Errors are returned as
    `some message`; on a raised error the returned driver state is the
    state at the raise point. -/
def B2902.setCurrent (c : Driver) (amps : ℚ) : Driver × Option String :=
  if ¬ setCurrentAllowedStates.contains c.state then
    (c, some "Operation not allowed")
  else if checkCurrentLimit c amps then
    (c, some "SAFETY: Requested current exceeds limit")
  else if c.mock then
    ({ c with lastSetI := amps, lastSetV := amps * 100 }, none)
  else
    ({ c with
        writes := c.writes ++ ["SOUR1:FUNC:MODE CURR", "SOUR1:CURR " ++ toString amps],
        sourceMode := "CURR",
        lastSetI := amps,
        state := if c.state = .ERROR then .IDLE else c.state }, none)

/-- Model of `KeysightB2901Controller.set_current`, smu_keysight_b2901.py lines
    173-193 (identical logic, single-channel command strings). -/
def B2901.setCurrent (c : Driver) (amps : ℚ) : Driver × Option String :=
  if ¬ setCurrentAllowedStates.contains c.state then
    (c, some "Operation not allowed")
  else if checkCurrentLimit c amps then
    (c, some "SAFETY: Requested current exceeds limit")
  else if c.mock then
    ({ c with lastSetI := amps, lastSetV := amps * 100 }, none)
  else
    ({ c with
        writes := c.writes ++ ["SOUR:FUNC:MODE CURR", "SOUR:CURR " ++ toString amps],
        sourceMode := "CURR",
        lastSetI := amps,
        state := if c.state = .ERROR then .IDLE else c.state }, none)

/-- Model of `Keithley2400Controller.set_current`, smu_keithley_2400.py lines
    180-197 (no ERROR-state recovery). -/
def K2400.setCurrent (c : Driver) (amps : ℚ) : Driver × Option String :=
  if ¬ setCurrentAllowedStates.contains c.state then
    (c, some "Operation not allowed")
  else if checkCurrentLimit c amps then
    (c, some "SAFETY: Requested current exceeds limit")
  else if c.mock then
    ({ c with lastSetI := amps, lastSetV := amps * 100 }, none)
  else
    ({ c with
        writes := c.writes ++ [":SOUR:FUNC CURR", ":SOUR:CURR " ++ toString amps],
        sourceMode := "CURR",
        lastSetI := amps }, none)

/-- The overload sentinel 1e37 of the drivers' measure routines. -/
def overloadSentinel : ℚ := 10 ^ 37

/-- Reading mapping inside `Keithley2400Controller.measure`,
    smu_keithley_2400.py lines 277-291 (hardware path): the response is
    split on commas; a missing part defaults to `1e38`; each value is
    returned as-is when `abs(v) < 1e37` and as None otherwise. -/
def keithley2400Measure (parts : List ℚ) : Option ℚ × Option ℚ :=
  let v := if parts.length > 0 then parts.getD 0 0 else 10 ^ 38
  let i := if parts.length > 1 then parts.getD 1 0 else 10 ^ 38
  (if |v| < overloadSentinel then some v else none,
   if |i| < overloadSentinel then some i else none)

/-- Reading mapping inside `KeysightB2901Controller.measure`,
    smu_keysight_b2901.py lines 299-310 (hardware path): each parsed value
    is returned as-is when `abs(v) < 1e37` and as None otherwise. -/
def b2901Measure (v i : ℚ) : Option ℚ × Option ℚ :=
  (if |v| < overloadSentinel then some v else none,
   if |i| < overloadSentinel then some i else none)

/-- Reading mapping inside `KeysightB2902Controller.measure`,
    smu_keysight_b2902.py lines 381-388 (hardware path): the parsed values
    are returned unconditionally — there is no overload-sentinel check in
    this driver. -/
def b2902Measure (v i : ℚ) : Option ℚ × Option ℚ :=
  (some v, some i)

/-- Model of `KeysightB2902Controller.enable_output`, smu_keysight_b2902.py lines
    297-318: require_state, then mock or wire path; a wire failure reaches
    `handle_error` (state becomes ERROR, an exception is raised) before
    `_output_enabled` is set. -/
def B2902.enableOutput (c : Driver) : Driver × Option String :=
  if ¬ [SMUState.CONFIGURED, .ARMED, .IDLE, .ERROR].contains c.state then
    (c, some "Operation not allowed")
  else if c.mock then
    ({ c with outputEnabled := true, state := .RUNNING }, none)
  else if c.wireOk then
    ({ c with writes := c.writes ++ ["OUTP1 ON"],
              outputEnabled := true, state := .RUNNING }, none)
  else
    ({ c with state := .ERROR }, some "Failed to enable output")

/-- Model of `KeysightB2902Controller.disable_output`, smu_keysight_b2902.py lines
    320-343: no state requirement; mock or wire path ("ABOR" then
    "OUTP1 OFF"); a wire failure reaches `handle_error`. -/
def B2902.disableOutput (c : Driver) : Driver × Option String :=
  if c.mock then
    ({ c with outputEnabled := false, state := .IDLE }, none)
  else if c.wireOk then
    ({ c with writes := c.writes ++ ["ABOR", "OUTP1 OFF"],
              outputEnabled := false, state := .IDLE }, none)
  else
    ({ c with state := .ERROR }, some "Failed to disable output")

/-! ## Driver factory (src/smu_factory.py) and Python call binding -/

/-- The parameter names of `create_smu_from_string` as defined in
    smu_factory.py lines 144-150: `(smu_type_str, address, channel, mock,
    name)` — note there is no `existing_resource` parameter. -/
def createSmuFromStringParams : List String :=
  ["smu_type_str", "address", "channel", "mock", "name"]

/-- Python call semantics: a call binds only if every supplied keyword
    argument names a declared parameter; otherwise the call raises
    `TypeError: got an unexpected keyword argument`. -/
def callBindsKwargs (declaredParams kwargs : List String) : Bool :=
  kwargs.all (fun k => declaredParams.contains k)

/-- The keyword arguments `SMUClient._get_controller` supplies to
    `create_smu_from_string` during lazy auto-attach, smu_client.py lines
    174-181 (`SMUClient.connect` lines 233-240 supplies the same set). -/
def autoAttachCallKwargs : List String :=
  ["smu_type_str", "address", "channel", "mock", "name", "existing_resource"]

/-! ## Channel registry / SMU client (src/ivtest/smu_client.py) -/

/-- Association-list lookup for the channel → controller map. -/
def chanLookup {α : Type} : List (Nat × α) → Nat → Option α
  | [], _ => none
  | p :: rest, ch => if p.1 = ch then some p.2 else chanLookup rest ch

/-- Association-list update (Python mutates the controller object held in
    `self._controllers[ch]` in place). -/
def chanUpdate {α : Type} : List (Nat × α) → Nat → α → List (Nat × α)
  | [], _, _ => []
  | p :: rest, ch, v => if p.1 = ch then (ch, v) :: rest else p :: chanUpdate rest ch v

/-- The fields of the `SMUClient` singleton relevant to channel dispatch
    (smu_client.py lines 64-79 and the `SMUStatus` dataclass). -/
structure ClientState where
  controllers : List (Nat × Driver)
  activeChannel : Nat
  statusConnected : Bool
  statusMock : Bool
  statusAddress : String
  statusSmuType : String
  statusOutputEnabled : Bool
deriving DecidableEq, Repr

/-- Model of `SMUClient._get_controller`, smu_client.py lines 147-197.  When the
    channel is missing but the client is connected to a `keysight_b2902`,
    the lazy auto-attach calls `create_smu_from_string` with the keyword
    arguments of `autoAttachCallKwargs`; since the factory does not declare
    `existing_resource`, that call raises TypeError, the `except` turns it
    into `RuntimeError: … auto-connect failed`.  (The branch under a
    successful bind builds the driver the code intends to build; it is
    unreachable with the current factory signature.) -/
def getController (cs : ClientState) (channel : Option Nat) :
    Except String (ClientState × Nat × Driver) :=
  let ch := channel.getD cs.activeChannel
  match chanLookup cs.controllers ch with
  | some c => .ok (cs, ch, c)
  | none =>
    if cs.statusConnected ∧ cs.statusSmuType = "keysight_b2902" then
      if callBindsKwargs createSmuFromStringParams autoAttachCallKwargs then
        let newCtrl : Driver :=
          { state := .IDLE, mock := cs.statusMock, softwareCurrentLimit := none,
            lastSetV := 0, lastSetI := 0, sourceMode := "VOLT",
            outputEnabled := false, wireOk := true, writes := [] }
        .ok ({ cs with controllers := cs.controllers ++ [(ch, newCtrl)] }, ch, newCtrl)
      else
        .error ("Channel " ++ toString ch ++
          " not connected and auto-connect failed: TypeError: " ++
          "create_smu_from_string() got an unexpected keyword argument " ++
          "existing_resource")
    else
      .error ("Channel " ++ toString ch ++ " not connected. Connect first.")

/-- Model of `SMUClient.output_control`, smu_client.py lines 375-395: fetch the
    controller (errors become `success: false` results), enable or disable
    its output (exceptions caught, `success: false`), and mirror the flag
    into the aggregate status when the active channel was addressed. -/
def outputControl (cs : ClientState) (enabled : Bool) (channel : Option Nat) :
    ClientState × Bool :=
  match getController cs channel with
  | .error _ => (cs, false)
  | .ok (cs1, ch, c) =>
    let r := if enabled then B2902.enableOutput c else B2902.disableOutput c
    let cs2 := { cs1 with controllers := chanUpdate cs1.controllers ch r.1 }
    match r.2 with
    | some _ => (cs2, false)
    | none =>
      let cs3 :=
        if channel = none ∨ channel = some cs2.activeChannel then
          { cs2 with statusOutputEnabled := enabled }
        else cs2
      (cs3, true)

/-- Model of `SMUClient._emergency_shutdown`, smu_client.py lines 82-91: best-effort
    disable of every controller whose output is enabled (per-channel
    exceptions caught). -/
def emergencyShutdown (cs : ClientState) : ClientState :=
  { cs with controllers := cs.controllers.map (fun p =>
      if p.2.outputEnabled then (p.1, (B2902.disableOutput p.2).1) else p) }

/-! ## Relay boards (src/ivtest/arduino_relays.py) -/

/-- One Arduino relay board: connection flag and the set of relay numbers
    currently ON (arduino_relays.py, `RelayBoard`). -/
structure RelayBoard where
  connected : Bool
  numRelays : Nat
  statesOn : List Nat
deriving DecidableEq, Repr

/-- Model of `RelayBoard.all_off`, arduino_relays.py lines 202-220: reports failure
    when not connected, otherwise switches every ON relay off. -/
def RelayBoard.allOff (b : RelayBoard) : RelayBoard × Bool :=
  if ¬ b.connected then (b, false)
  else ({ b with statesOn := [] }, true)

/-- The two-board relay controller (arduino_relays.py,
    `MultiBoardRelayController`). -/
structure RelayController where
  pixel : RelayBoard
  rgb : RelayBoard
  selectedPixel : Option Nat
  selectedLed : Option Nat
deriving DecidableEq, Repr

/-- Model of `MultiBoardRelayController.all_off`, arduino_relays.py lines 468-480:
    all-off on both boards, clears selections, reports overall success
    unconditionally. -/
def RelayController.allOff (rc : RelayController) : RelayController × Bool :=
  let p := rc.pixel.allOff
  let r := rc.rgb.allOff
  ({ pixel := p.1, rgb := r.1, selectedPixel := none, selectedLed := none }, true)

/-! ## Sweep point generation (src/ivtest/smu_client.py, run_iv_sweep) -/

/-- Model of `np.linspace(s, e, n)` over exact rationals: `n` evenly spaced points
    from `s` to `e` inclusive (one point equal to `s` when `n = 1`). -/
def linspace (s e : ℚ) (n : Nat) : List ℚ :=
  match n with
  | 0 => []
  | 1 => [s]
  | _ => (List.range n).map (fun i : ℕ => s + (e - s) * (i : ℚ) / ((n : ℚ) - 1))

/-- Model of `points_arr[-1] = x` on a non-empty array. -/
def setLast (l : List ℚ) (x : ℚ) : List ℚ :=
  if l.isEmpty then l else l.dropLast ++ [x]

/-- Python `str.lower()` on ASCII letters. -/
def lowerChar (c : Char) : Char :=
  if 'A' ≤ c ∧ c ≤ 'Z' then Char.ofNat (c.toNat + 32) else c

/-- Python `str.lower()`. -/
def lowerStr (s : String) : String := String.mk (s.toList.map lowerChar)

/-- The commanded-point generation of `SMUClient.run_iv_sweep` for the
    linear scale, smu_client.py lines 466-500: direction swaps start/stop;
    the last base point is re-pinned to the directed endpoint; a "double"
    sweep appends the reverse of the base array with its first element
    dropped and re-pins the final point to the directed start. -/
def sweepPoints (start stop : ℚ) (steps : Nat) (direction sweepType : String) :
    List ℚ :=
  let sVal := if direction = "forward" then start else stop
  let eVal := if direction = "forward" then stop else start
  let base := linspace sVal eVal steps
  let base := if base.length > 0 then setLast base eVal else base
  if lowerStr sweepType = "double" then
    setLast (base ++ base.reverse.drop 1) sVal
  else base

/-! ## Protocol values and parameter resolution (src/ivtest/protocol_engine.py) -/

/-- JSON-like values carried in protocol step parameters and the captured
    variable map. -/
inductive PValue where
  | null
  | bool (b : Bool)
  | num (q : ℚ)
  | str (s : String)
  | list (xs : List PValue)
  | dict (fields : List (String × PValue))
deriving Repr

/-- Python dict lookup on the captured-variable map (`var_name in
    self._captured` / `self._captured[var_name]`). -/
def capLookup (cap : List (String × PValue)) (name : String) : Option PValue :=
  match cap.find? (fun p => p.1 == name) with
  | some p => some p.2
  | none => none

/-- Python dict store with overwrite semantics
    (`self._captured[var_name] = value`). -/
def capStore (cap : List (String × PValue)) (name : String) (v : PValue) :
    List (String × PValue) :=
  (name, v) :: cap.filter (fun p => p.1 != name)

/-- Model of `str()` rendering used when a captured value is interpolated into a
    string (protocol_engine.py lines 296 and 308).  Container rendering
    approximates Python's; no claim depends on the exact text. -/
def pToString : PValue → String
  | .null => "None"
  | .bool b => if b then "True" else "False"
  | .num q => toString q
  | .str s => s
  | .list xs => toString (xs.map fun _ => "·")
  | .dict fs => toString (fs.map fun p => p.1)

/-- The regex character class `[a-zA-Z0-9_]` of the reference patterns. -/
def isWordChar (c : Char) : Bool := c.isAlphanum || c = '_'

/-- Longest leading run of word characters (the `+` of `([a-zA-Z0-9_]+)`),
    with the remaining characters. -/
def takeIdent : List Char → List Char × List Char
  | [] => ([], [])
  | c :: cs =>
    if isWordChar c then
      let r := takeIdent cs
      (c :: r.1, r.2)
    else ([], c :: cs)

theorem takeIdent_snd_length (l : List Char) : (takeIdent l).2.length ≤ l.length := by
  induction l with
  | nil => simp [takeIdent]
  | cons c cs ih =>
    by_cases h : isWordChar c = true
    · simpa [takeIdent, h] using Nat.le_succ_of_le ih
    · simp [takeIdent, h]

/-- Matches of `re.finditer(r'(?<!\{)\$([a-zA-Z0-9_]+)', s)` in order:
    the identifiers of `$name` tokens whose `$` is not preceded by `{`
    (protocol_engine.py line 301).  `prevIsBrace` tracks whether the
    previous character was `{`; after a match the previous character is a
    word character, never `{`. -/
def findUnbracedAux (prevIsBrace : Bool) : List Char → List String
  | [] => []
  | c :: cs =>
    if c == '$' && !prevIsBrace then
      let r := takeIdent cs
      if r.1.isEmpty then findUnbracedAux false cs
      else String.mk r.1 :: findUnbracedAux false r.2
    else findUnbracedAux (c == '\x7b') cs
termination_by l => l.length
decreasing_by
  all_goals simp_wf
  all_goals (have hlen := takeIdent_snd_length cs; omega)

/-- All `$name` matches of the unbraced-reference regex in a string. -/
def findUnbracedRefs (s : String) : List String :=
  findUnbracedAux false s.toList

/-- Matches of `re.finditer(r'\{\$([a-zA-Z0-9_]+)\}', s)` in order
    (protocol_engine.py line 292). -/
def findBracedAux : List Char → List String
  | [] => []
  | c :: cs =>
    if c == '\x7b' && cs.headD ' ' == '$' then
      let r := takeIdent (cs.drop 1)
      if r.1.isEmpty then findBracedAux cs
      else if r.2.headD ' ' == '\x7d' then
        String.mk r.1 :: findBracedAux (r.2.drop 1)
      else findBracedAux cs
    else findBracedAux cs
termination_by l => l.length
decreasing_by
  all_goals simp_wf
  all_goals
    (first
      | omega
      | (have hlen := takeIdent_snd_length (cs.drop 1)
         simp only [List.drop_one, List.length_drop, List.length_tail] at *
         omega))

/-- All `{$name}` matches of the braced-reference regex in a string. -/
def findBracedRefs (s : String) : List String :=
  findBracedAux s.toList

/-- First occurrence of `token` not followed by a word character, split as
    (characters before the match, characters after the token).  This is the
    match located by `re.sub(re.escape(token) + r'(\b|[^a-zA-Z0-9_]|$)', …,
    s, count=1)` in protocol_engine.py lines 307-308. -/
def splitFirstBounded (token : List Char) : List Char → Option (List Char × List Char)
  | [] => none
  | c :: cs =>
    let here := c :: cs
    if token.isPrefixOf here &&
        (match here.drop token.length with
         | [] => true
         | d :: _ => !isWordChar d) then
      some ([], here.drop token.length)
    else
      match splitFirstBounded token cs with
      | some (p, suf) => some (c :: p, suf)
      | none => none

/-- Model of `re.sub(re.escape(token) + r'(\b|[^a-zA-Z0-9_]|$)', repl + r'\1', s,
    count=1)`: replace the first bounded occurrence of `token` by `repl`,
    keeping the boundary character (the `\1` backreference; the zero-width
    `\b`/`$` alternatives contribute an empty `\1`, with the same result). -/
def replaceFirstBounded (s token repl : String) : String :=
  match splitFirstBounded token.toList s.toList with
  | some (p, suf) => String.mk p ++ repl ++ String.mk suf
  | none => s

/-- The string-interpolation path of `ProtocolEngine._resolve_params`,
    protocol_engine.py lines 287-310: first every `{$name}` pattern found
    in the original value is replaced (all occurrences, str.replace) when
    `name` is captured; then the `$name` matches found in that intermediate
    string are substituted one by one, first bounded occurrence each. -/
def interpolate (cap : List (String × PValue)) (value : String) : String :=
  let v1 := (findBracedRefs value).foldl
    (fun acc name =>
      match capLookup cap name with
      | some v => acc.replace ("\x7b$" ++ name ++ "\x7d") (pToString v)
      | none => acc) value
  (findUnbracedRefs v1).foldl
    (fun acc name =>
      match capLookup cap name with
      | some v => replaceFirstBounded acc ("$" ++ name) (pToString v)
      | none => acc) v1

/-- Resolution of a single string parameter value,
    `ProtocolEngine._resolve_params`, protocol_engine.py lines 277-312:
    an exact `$name` value (no `{` present) resolves to the captured value
    itself when captured; otherwise the value goes through interpolation
    when it contains `$`, and is kept verbatim when it does not. -/
def resolveStr (cap : List (String × PValue)) (value : String) : PValue :=
  if value.toList.headD ' ' == '$' && !(value.toList.contains '\x7b') then
    match capLookup cap (String.mk (value.toList.drop 1)) with
    | some v => v
    | none =>
      if value.toList.contains '$' then .str (interpolate cap value)
      else .str value
  else if value.toList.contains '$' then .str (interpolate cap value)
  else .str value

/-- Model of `ProtocolEngine._resolve_params`, protocol_engine.py lines 269-315:
    string values are resolved, every other value is passed through. -/
def resolveParams (cap : List (String × PValue))
    (params : List (String × PValue)) : List (String × PValue) :=
  params.map (fun p =>
    match p.2 with
    | .str s => (p.1, resolveStr cap s)
    | v => (p.1, v))

/-! ## Protocol engine (src/ivtest/protocol_engine.py) -/

/-- Python truthiness of a parameter value. -/
def pTruthy : PValue → Bool
  | .null => false
  | .bool b => b
  | .num q => q ≠ 0
  | .str s => !s.isEmpty
  | .list xs => !xs.isEmpty
  | .dict fs => !fs.isEmpty

/-- Python `int()` truncation toward zero of a number. -/
def pyInt (q : ℚ) : Int := if 0 ≤ q then ⌊q⌋ else ⌈q⌉

/-- Length of Python `range(start, stop, step)` for `step ≠ 0`. -/
def rangeLen (start stop step : Int) : Nat :=
  if 0 < step then
    let d := (stop - start).toNat
    if d = 0 then 0 else (d - 1) / step.toNat + 1
  else if step < 0 then
    let d := (start - stop).toNat
    if d = 0 then 0 else (d - 1) / (-step).toNat + 1
  else 0

/-- Python `list(range(start, stop, step))` for `step ≠ 0`: element `i`
    is `start + step*i` (the step-0 ValueError is handled at the call
    site). -/
def pyRange (start stop step : Int) : List Int :=
  (List.range (rangeLen start stop step)).map
    (fun i : ℕ => start + step * (i : Int))

/-- A protocol step: `{action, params, capture_as?, steps?}`
    (protocol_engine.py run/execute; spec §6 artifact format). -/
inductive Step where
  | mk (action : String) (params : List (String × PValue))
      (captureAs : Option String) (substeps : List Step)

def Step.action : Step → String
  | .mk a _ _ _ => a

def Step.params : Step → List (String × PValue)
  | .mk _ p _ _ => p

def Step.captureAs : Step → Option String
  | .mk _ _ c _ => c

def Step.substeps : Step → List Step
  | .mk _ _ _ s => s

/-- The dict returned by an embedded action handler.  `iterations` is the
    extra field of a successful `control/loop` result. -/
structure ActionResult where
  success : Bool
  message : Option String
  iterations : Option Nat
deriving Repr

/-- The action-result dict as a capturable value. -/
def ActionResult.toPValue (r : ActionResult) : PValue :=
  .dict ([("success", .bool r.success)]
    ++ (match r.message with
        | some m => [("message", .str m)]
        | none => [])
    ++ (match r.iterations with
        | some n => [("iterations", .num n)]
        | none => []))

/-- Model of `StepResult` dataclass, protocol_engine.py lines 26-34 (duration is
    not modelled). -/
structure StepResult where
  stepIndex : Nat
  action : String
  success : Bool
  result : Option PValue
  error : Option String

/-- Model of `ProtocolResult` dataclass, protocol_engine.py lines 37-46
    (`step_results` and `captured_data` are carried separately by the
    interpreter state). -/
structure ProtocolResult where
  success : Bool
  stepsCompleted : Nat
  totalSteps : Nat
  aborted : Bool
  error : Option String
deriving Repr

/-- The mutable state the engine acts on: the SMU client registry, the
    relay controller and the run manager singletons. -/
structure EngineWorld where
  client : ClientState
  relays : RelayController
  rm : RunManager
deriving Repr

/-- The embedded subset of the action dispatch table
    (protocol_engine.py lines 63-89).  The remaining actions (hardware
    sweeps, relay selection, data persistence, connects) act on resources
    outside this model and are not needed by any claim. -/
def actionTableKeys : List String :=
  ["wait", "smu/output", "relays/all-off",
   "status/arm", "status/start", "status/complete", "status/abort",
   "control/loop"]

/-- Model of `params.get("channel", None)` (integral channel numbers). -/
def paramChannel (params : List (String × PValue)) : Option Nat :=
  match capLookup params "channel" with
  | some (.num q) => if q.den = 1 ∧ 0 ≤ q.num then some q.num.toNat else none
  | _ => none

/-- The non-loop embedded action handlers (protocol_engine.py lines
    319-324, 357-361, 600-617).  `now` is the external clock. -/
def basicAction (w : EngineWorld) (action : String)
    (params : List (String × PValue)) (now : Nat) : EngineWorld × ActionResult :=
  if action = "wait" then
    -- _action_wait: an interruptible sleep; only time passes
    (w, ⟨true, none, none⟩)
  else if action = "smu/output" then
    let enabled := pTruthy ((capLookup params "enabled").getD (.bool true))
    let r := outputControl w.client enabled (paramChannel params)
    ({ w with client := r.1 },
     ⟨r.2, if r.2 then none else some "Output control error", none⟩)
  else if action = "relays/all-off" then
    let r := w.relays.allOff
    ({ w with relays := r.1 }, ⟨r.2, none, none⟩)
  else if action = "status/arm" then
    let r := w.rm.arm now
    ({ w with rm := r.1 }, ⟨r.2, none, none⟩)
  else if action = "status/start" then
    let r := w.rm.start now
    ({ w with rm := r.1 }, ⟨r.2, none, none⟩)
  else if action = "status/complete" then
    let r := w.rm.complete now
    ({ w with rm := r.1 }, ⟨r.2, none, none⟩)
  else if action = "status/abort" then
    -- run_manager.abort(): flag, shutdown callbacks (the SMU client
    -- registers _emergency_shutdown, smu_client.py line 77), state logic
    ({ w with client := emergencyShutdown w.client, rm := abortRM w.rm },
     ⟨true, none, none⟩)
  else (w, ⟨false, some ("Unknown action: " ++ action), none⟩)

/-- Item selection of `_action_control_loop`, protocol_engine.py lines
    684-700: a non-empty `sequence` wins, otherwise a non-empty `range`
    dict yields `list(range(int(start), int(stop), int(step)))` (ValueError
    on step 0), otherwise no items. -/
def loopItems (params : List (String × PValue)) : Except String (List PValue) :=
  let sequence := match capLookup params "sequence" with
    | some (.list xs) => xs
    | _ => []
  let rngFields := match capLookup params "range" with
    | some (.dict fs) => fs
    | _ => []
  if !sequence.isEmpty then .ok sequence
  else if !rngFields.isEmpty then
    let start := match capLookup rngFields "start" with
      | some (.num q) => pyInt q
      | _ => 0
    let stop := match capLookup rngFields "stop" with
      | some (.num q) => pyInt q
      | _ => 1
    let step := match capLookup rngFields "step" with
      | some (.num q) => pyInt q
      | _ => 1
    if step = 0 then .error "range() arg 3 must not be zero"
    else .ok ((pyRange start stop step).map (fun n => .num (n : ℚ)))
  else .ok []

theorem one_le_sizeOf_list {α : Type} [SizeOf α] (l : List α) : 1 ≤ sizeOf l := by
  cases l <;> simp_arith

theorem one_le_sizeOf_option {α : Type} [SizeOf α] (o : Option α) : 1 ≤ sizeOf o := by
  cases o <;> simp_arith

mutual

/-- Model of `ProtocolEngine._execute_step`, protocol_engine.py lines 191-267:
    abort pre-check, parameter resolution, unknown-action check, dispatch
    (loop actions receive the nested step list), capture handling, and the
    conversion of exceptions and `success: false` results into a failed
    `StepResult`. -/
def execStep (w : EngineWorld) (cap : List (String × PValue)) (now : Nat)
    (idx : Nat) : Step → EngineWorld × List (String × PValue) × StepResult
  | .mk action params capAs substeps =>
    if w.rm.abortRequested then
      (w, cap, ⟨idx, action, false, none, some "Aborted before execution"⟩)
    else
      let rparams := resolveParams cap params
      if ¬ actionTableKeys.contains action then
        (w, cap, ⟨idx, action, false, none, some ("Unknown action: " ++ action)⟩)
      else if action = "control/loop" then
        match actionControlLoop w cap now rparams substeps with
        | (w1, cap1, .error e) =>
          (w1, cap1, ⟨idx, action, false, none, some e⟩)
        | (w1, cap1, .ok r) =>
          let capOut := match capAs with
            | some name => capStore cap1 name r.toPValue
            | none => cap1
          (w1, capOut, ⟨idx, action, r.success, some r.toPValue,
            if r.success then none else r.message⟩)
      else
        let br := basicAction w action rparams now
        let capOut := match capAs with
          | some name => capStore cap name br.2.toPValue
          | none => cap
        (br.1, capOut, ⟨idx, action, br.2.success, some br.2.toPValue,
          if br.2.success then none else br.2.message⟩)
termination_by s => (sizeOf s, 0)
decreasing_by
  all_goals simp_wf
  all_goals
    (rename_i p c sub _ _ _
     have hl := one_le_sizeOf_list p
     have ho := one_le_sizeOf_option c
     omega)

/-- Model of `ProtocolEngine._action_control_loop`, protocol_engine.py lines
    680-733: resolve the loop variable and items; an empty item list is a
    `success: false, "No items to iterate"` result; otherwise iterate.
    The `.error` constructor carries a Python exception out to
    `_execute_step`'s handler. -/
def actionControlLoop (w : EngineWorld) (cap : List (String × PValue))
    (now : Nat) (params : List (String × PValue)) (substeps : List Step) :
    EngineWorld × List (String × PValue) × Except String ActionResult :=
  let varName := match capLookup params "variable" with
    | some (.str s) => s
    | _ => "i"
  match loopItems params with
  | .error e => (w, cap, .error e)
  | .ok items =>
    if items.isEmpty then
      (w, cap, .ok ⟨false, some "No items to iterate", none⟩)
    else
      let r := execLoopIter w cap now varName items substeps 0
      (r.1, r.2.1, .ok r.2.2)
termination_by (sizeOf substeps + 2, 0)

/-- The outer `for val in items` loop of `_action_control_loop`,
    protocol_engine.py lines 704-733: abort check, bind the loop variable
    into the shared capture map, run the substeps, fail the whole loop on a
    failed substep, count the iteration. -/
def execLoopIter (w : EngineWorld) (cap : List (String × PValue)) (now : Nat)
    (varName : String) (items : List PValue) (steps : List Step)
    (count : Nat) : EngineWorld × List (String × PValue) × ActionResult :=
  match items with
  | [] => (w, cap, ⟨true, none, some count⟩)
  | v :: rest =>
    if w.rm.abortRequested then (w, cap, ⟨true, none, some count⟩)
    else
      let cap1 := capStore cap varName v
      let r := execSubSteps w cap1 now 0 steps
      match r.2.2 with
      | some e => (r.1, r.2.1, ⟨false, some ("Loop failed: " ++ e), none⟩)
      | none => execLoopIter r.1 r.2.1 now varName rest steps (count + 1)
termination_by (sizeOf steps + 1, items.length)

/-- The inner `for i, step in enumerate(steps)` loop of
    `_action_control_loop`, protocol_engine.py lines 717-729: abort breaks
    out (no failure), a failed substep returns its error. -/
def execSubSteps (w : EngineWorld) (cap : List (String × PValue)) (now : Nat)
    (idx : Nat) : List Step → EngineWorld × List (String × PValue) × Option String
  | [] => (w, cap, none)
  | s :: rest =>
    if w.rm.abortRequested then (w, cap, none)
    else
      let r := execStep w cap now idx s
      if r.2.2.success then execSubSteps r.1 r.2.1 now (idx + 1) rest
      else (r.1, r.2.1, some (r.2.2.error.getD "None"))
termination_by l => (sizeOf l, 0)

end

/-- Model of `ProtocolEngine._perform_safety_cleanup`, protocol_engine.py lines
    751-769: disable SMU output through the client with no channel argument
    (the active channel), then open all relays; each action is guarded by
    its own try/except, so the second runs regardless of the first. -/
def performSafetyCleanup (w : EngineWorld) : EngineWorld :=
  let r1 := outputControl w.client false none
  let w1 := { w with client := r1.1 }
  let r2 := w1.relays.allOff
  { w1 with relays := r2.1 }

/-- The per-step loop of `ProtocolEngine.run`, protocol_engine.py lines
    116-179: abort stops the run (aborted result), a failed step stops the
    run (failure result), a succeeding step may be re-captured (lines
    146-159 duplicate the capture already performed in `_execute_step`). -/
def runSteps (w : EngineWorld) (cap : List (String × PValue)) (now : Nat)
    (idx total : Nat) : List Step → EngineWorld × List (String × PValue) × ProtocolResult
  | [] => (w, cap, ⟨true, total, total, false, none⟩)
  | s :: rest =>
    if w.rm.abortRequested then
      (w, cap, ⟨false, idx, total, true, none⟩)
    else
      let r := execStep w cap now idx s
      if ¬ r.2.2.success then
        (r.1, r.2.1, ⟨false, idx, total, false, r.2.2.error⟩)
      else
        let capOut := match s.captureAs, r.2.2.result with
          | some name, some payload =>
            if pTruthy payload then capStore r.2.1 name payload else r.2.1
          | _, _ => r.2.1
        runSteps r.1 capOut now (idx + 1) total rest

/-- The try-block of `ProtocolEngine.run`, protocol_engine.py lines
    102-179: reset the capture map, normalise the run-manager state (reset
    from ABORTED/ERROR, arm from IDLE, start from ARMED), then execute the
    steps. -/
def runBody (w : EngineWorld) (now : Nat) (steps : List Step) :
    EngineWorld × List (String × PValue) × ProtocolResult :=
  let rm0 := w.rm
  let rm1 := if rm0.state = .ABORTED ∨ rm0.state = .ERROR then (rm0.reset now).1 else rm0
  let rm2 := if rm1.state = .IDLE then (rm1.arm now).1 else rm1
  let rm3 := if rm2.state = .ARMED then (rm2.start now).1 else rm2
  runSteps { w with rm := rm3 } [] now 0 steps.length steps

/-- Model of `ProtocolEngine.run`, protocol_engine.py lines 91-189: the body above,
    then the `finally` block — perform the safety cleanup (unless skipped)
    and call `run_manager.complete()`; the body's result is returned
    whatever the cleanup does. -/
def runEngine (w : EngineWorld) (now : Nat) (steps : List Step)
    (skipCleanup : Bool) : EngineWorld × ProtocolResult :=
  let body := runBody w now steps
  let w1 := body.1
  let w2 := if skipCleanup then w1 else performSafetyCleanup w1
  let w3 := { w2 with rm := (w2.rm.complete now).1 }
  (w3, body.2.2)

/-! ## Helper lemmas -/

/-- In one public operation, a set abort flag becomes false exactly when
    the operation successfully enters ARMED or RUNNING. -/
theorem abortFlag_clear_iff (rm : RunManager) (op : RMOp) (now : Nat)
    (h : rm.abortRequested = true) :
    ((applyOp rm now op).1.abortRequested = false ↔
      entersArmedOrRunning rm op now) := by
  obtain ⟨st, rst, ab, em, sc, ts⟩ := rm
  simp only at h
  subst h
  cases op with
  | armOp =>
    cases st <;>
      simp [applyOp, RunManager.arm, transitionTo, canTransition,
        validTransitions, entersArmedOrRunning]
  | startOp =>
    cases st <;>
      simp [applyOp, RunManager.start, transitionTo, canTransition,
        validTransitions, entersArmedOrRunning]
  | completeOp =>
    cases st <;>
      simp [applyOp, RunManager.complete, transitionTo, canTransition,
        validTransitions, entersArmedOrRunning]
  | abortOp =>
    cases st <;>
      simp [applyOp, abortRM, entersArmedOrRunning]
  | setErrorOp msg =>
    cases st <;>
      simp [applyOp, RunManager.setError, transitionTo, canTransition,
        validTransitions, entersArmedOrRunning]
  | resetOp =>
    cases st <;>
      simp [applyOp, RunManager.reset, transitionTo, canTransition,
        validTransitions, entersArmedOrRunning]
  | transitionOp s msg =>
    cases st <;> cases s <;>
      simp [applyOp, transitionTo, canTransition, validTransitions,
        entersArmedOrRunning]

/-- Along a trace containing no successful entry into ARMED or RUNNING, a
    set abort flag stays set. -/
theorem abortFlag_persists (tr : List (RMOp × Nat)) (rm : RunManager)
    (h : rm.abortRequested = true) (hno : noArmStartAlong rm tr) :
    (runOps rm tr).abortRequested = true := by
  induction tr generalizing rm with
  | nil => exact h
  | cons p rest ih =>
    obtain ⟨hne, hrest⟩ := hno
    have hstep : (applyOp rm p.2 p.1).1.abortRequested = true := by
      rcases hb : (applyOp rm p.2 p.1).1.abortRequested with _ | _
      · exact absurd ((abortFlag_clear_iff rm p.1 p.2 h).mp hb) hne
      · rfl
    exact ih (applyOp rm p.2 p.1).1 hstep hrest

/-! ## Claim theorems -/

/-- C1: `transition_to(new_state)` succeeds exactly for the pairs of the
    legal table {IDLE→ARMED; ARMED→RUNNING/IDLE; RUNNING→IDLE/ABORTED/ERROR;
    ABORTED→IDLE; ERROR→IDLE}; outside the table it returns False with
    every field unchanged; inside it returns True, sets the state, and
    performs exactly the §4.4 side effects (RUNNING records the run-start
    time and clears the abort flag; ARMED clears the abort flag; ERROR
    records the message; IDLE clears run-start time, error message and
    progress counters). -/
theorem transitionTo_legal_table (rm : RunManager) (s : RunState)
    (msg : Option String) (now : Nat) :
    (canTransition rm s = true ↔
      (rm.state, s) ∈ [(RunState.IDLE, RunState.ARMED),
        (RunState.ARMED, RunState.RUNNING), (RunState.ARMED, RunState.IDLE),
        (RunState.RUNNING, RunState.IDLE), (RunState.RUNNING, RunState.ABORTED),
        (RunState.RUNNING, RunState.ERROR), (RunState.ABORTED, RunState.IDLE),
        (RunState.ERROR, RunState.IDLE)]) ∧
    (canTransition rm s = false → transitionTo rm s msg now = (rm, false)) ∧
    (canTransition rm s = true →
      (transitionTo rm s msg now).2 = true ∧
      (transitionTo rm s msg now).1 =
        { state := s,
          runStartTime :=
            if s = .RUNNING then some now
            else if s = .IDLE then none else rm.runStartTime,
          abortRequested :=
            if s = .RUNNING ∨ s = .ARMED then false else rm.abortRequested,
          errorMessage :=
            if s = .ERROR then msg
            else if s = .IDLE then none else rm.errorMessage,
          stepsCompleted := if s = .IDLE then 0 else rm.stepsCompleted,
          totalSteps := if s = .IDLE then 0 else rm.totalSteps }) := by
  obtain ⟨st, rst, ab, em, sc, ts⟩ := rm
  cases st <;> cases s <;>
    simp [canTransition, validTransitions, transitionTo]

/-- C1 witness: one legal edge (IDLE→ARMED) succeeds with the ARMED side
    effect, one illegal edge (RUNNING→ARMED) is rejected unchanged. -/
theorem transitionTo_legal_table_witness :
    (transitionTo ⟨.IDLE, none, true, none, 3, 5⟩ .ARMED none 7).2 = true ∧
    transitionTo ⟨.RUNNING, some 1, false, some "m", 2, 4⟩ .ARMED none 7 =
      (⟨.RUNNING, some 1, false, some "m", 2, 4⟩, false) :=
  ⟨((transitionTo_legal_table ⟨.IDLE, none, true, none, 3, 5⟩ .ARMED none 7).2.2
      (by decide)).1,
   (transitionTo_legal_table ⟨.RUNNING, some 1, false, some "m", 2, 4⟩ .ARMED none
      7).2.1 (by decide)⟩

/-- C2: the abort flag is sticky.  `abort()` from RUNNING ends in IDLE with
    the flag still set; a transition into IDLE never changes the flag; in
    any public operation a set flag becomes false exactly when the
    operation successfully enters ARMED or RUNNING (a successful arm or
    start); hence along any trace without such a step the flag stays
    set. -/
theorem abort_flag_sticky :
    (∀ (rm : RunManager) (W : Type) (cbs : List (W → W × Bool)) (w : W),
      rm.state = .RUNNING →
        (RunManager.abort rm cbs w).1.state = .IDLE ∧
        (RunManager.abort rm cbs w).1.abortRequested = true) ∧
    (∀ (rm : RunManager) (msg : Option String) (now : Nat),
      (transitionTo rm .IDLE msg now).1.abortRequested = rm.abortRequested) ∧
    (∀ (rm : RunManager) (op : RMOp) (now : Nat),
      rm.abortRequested = true →
        ((applyOp rm now op).1.abortRequested = false ↔
          entersArmedOrRunning rm op now)) ∧
    (∀ (rm : RunManager) (tr : List (RMOp × Nat)),
      rm.abortRequested = true → noArmStartAlong rm tr →
        (runOps rm tr).abortRequested = true) := by
  refine ⟨?_, ?_, ?_, ?_⟩
  · intro rm W cbs w h
    obtain ⟨st, rst, ab, em, sc, ts⟩ := rm
    simp only at h
    subst h
    simp [RunManager.abort]
  · intro rm msg now
    obtain ⟨st, rst, ab, em, sc, ts⟩ := rm
    cases st <;> simp [transitionTo, canTransition, validTransitions]
  · intro rm op now h
    exact abortFlag_clear_iff rm op now h
  · intro rm tr h hno
    exact abortFlag_persists tr rm h hno

/-- C2 witness: abort while RUNNING ends IDLE with the flag set, and the
    flag survives a complete/arm-rejection trace without a successful
    arm/start. -/
theorem abort_flag_sticky_witness :
    (RunManager.abort ⟨.RUNNING, some 2, false, none, 1, 9⟩ ([] : List (Nat → Nat × Bool)) 0).1.state
        = .IDLE ∧
    (RunManager.abort ⟨.RUNNING, some 2, false, none, 1, 9⟩ ([] : List (Nat → Nat × Bool)) 0).1.abortRequested
        = true ∧
    (runOps ⟨.IDLE, none, true, none, 0, 0⟩ [(.completeOp, 3), (.resetOp, 4)]).abortRequested
        = true := by
  refine ⟨(abort_flag_sticky.1 ⟨.RUNNING, some 2, false, none, 1, 9⟩ Nat [] 0 rfl).1,
          (abort_flag_sticky.1 ⟨.RUNNING, some 2, false, none, 1, 9⟩ Nat [] 0 rfl).2,
          abort_flag_sticky.2.2.2 ⟨.IDLE, none, true, none, 0, 0⟩
            [(.completeOp, 3), (.resetOp, 4)] rfl ?_⟩
  constructor
  · intro hc
    have := hc.2
    revert this
    decide
  · constructor
    · intro hc
      have := hc.2
      revert this
      decide
    · trivial

/-- C3: the claim that `abort()` always ends in IDLE fails in the ERROR
    state: the final force-to-IDLE branch tests only for ABORTED, ARMED or
    IDLE (run_manager.py line 174), so aborting from ERROR leaves the
    state ERROR — contradicting the `Always end in IDLE` comment one line
    above.  The other two guarantees do hold at this input: the abort flag
    is set, and every registered callback is invoked even though the first
    one raises. -/
theorem abort_from_ERROR_stays_ERROR :
    (RunManager.abort ⟨.ERROR, none, false, some "boom", 0, 0⟩
        [fun w : Nat => (w + 1, true), fun w : Nat => (w * 2, false)] 0).1.state = .ERROR ∧
    (RunManager.abort ⟨.ERROR, none, false, some "boom", 0, 0⟩
        [fun w : Nat => (w + 1, true), fun w : Nat => (w * 2, false)] 0).1.abortRequested = true ∧
    (RunManager.abort ⟨.ERROR, none, false, some "boom", 0, 0⟩
        [fun w : Nat => (w + 1, true), fun w : Nat => (w * 2, false)] 0).2.2.2 = [true, false] := by
  refine ⟨rfl, rfl, rfl⟩

/-- C5: the overload mapping is not identical across drivers.  At the
    sentinel reading 1e37 the Keithley 2400 and Keysight B2901 drivers
    return null readings as claimed, but the Keysight B2902 driver's
    `measure` has no sentinel check and returns the raw number; readings
    below the sentinel pass through unchanged in all drivers. -/
theorem b2902_measure_returns_raw_sentinel :
    b2902Measure (10 ^ 37) (10 ^ 37) = (some (10 ^ 37), some (10 ^ 37)) ∧
    keithley2400Measure [10 ^ 37, 10 ^ 37] = (none, none) ∧
    b2901Measure (10 ^ 37) (10 ^ 37) = (none, none) ∧
    keithley2400Measure [5, 3] = (some 5, some 3) ∧
    b2901Measure 5 3 = (some 5, some 3) := by
  refine ⟨rfl, ?_, ?_, ?_, ?_⟩ <;>
    norm_num [keithley2400Measure, b2901Measure, overloadSentinel, abs_of_nonneg]

/-- C6: the software current ceiling (identical `_check_current_limit` in
    all three drivers): with ceiling C set, a `set_current(x)` with
    `|x| > 1.001*C` is rejected by the safety error, leaving the driver —
    in particular its wire-write log and cached last-commanded current —
    completely unchanged; an `x` with `|x| ≤ 1.001*C` passes the ceiling
    check. -/
theorem software_ceiling_interlock (c : Driver) (C x : ℚ) (hC : 0 ≤ C)
    (hst : c.state ∈ setCurrentAllowedStates) :
    (C * (1001 / 1000) < |x| →
      B2902.setCurrent (setSoftwareCurrentLimit c (some C)) x =
        (setSoftwareCurrentLimit c (some C),
         some "SAFETY: Requested current exceeds limit") ∧
      B2901.setCurrent (setSoftwareCurrentLimit c (some C)) x =
        (setSoftwareCurrentLimit c (some C),
         some "SAFETY: Requested current exceeds limit") ∧
      K2400.setCurrent (setSoftwareCurrentLimit c (some C)) x =
        (setSoftwareCurrentLimit c (some C),
         some "SAFETY: Requested current exceeds limit") ∧
      (B2902.setCurrent (setSoftwareCurrentLimit c (some C)) x).1.writes = c.writes ∧
      (B2902.setCurrent (setSoftwareCurrentLimit c (some C)) x).1.lastSetI = c.lastSetI) ∧
    (|x| ≤ C * (1001 / 1000) →
      checkCurrentLimit (setSoftwareCurrentLimit c (some C)) x = false) := by
  have hchk : ∀ b : Bool,
      checkCurrentLimit (setSoftwareCurrentLimit c (some C)) x = b ↔
        ((C * (1001 / 1000) < |x|) ↔ b = true) := by
    intro b
    cases b <;>
      simp [checkCurrentLimit, setSoftwareCurrentLimit, abs_of_nonneg hC]
  constructor
  · intro hx
    have h1 : checkCurrentLimit (setSoftwareCurrentLimit c (some C)) x = true :=
      (hchk true).mpr (by simpa using hx)
    simp [setSoftwareCurrentLimit] at h1
    refine ⟨?_, ?_, ?_, ?_, ?_⟩ <;>
      simp [B2902.setCurrent, B2901.setCurrent, K2400.setCurrent,
        setSoftwareCurrentLimit, hst, h1]
  · intro hx
    exact (hchk false).mpr (by simpa using not_lt.mpr hx)

/-- C6 witness: ceiling 0.01 A — commanding 0.02 A is rejected with no
    state change, commanding 0.01 A passes the ceiling check. -/
theorem software_ceiling_interlock_witness :
    B2902.setCurrent
        (setSoftwareCurrentLimit
          ⟨.IDLE, false, none, 0, 0, "VOLT", false, true, []⟩ (some (1 / 100)))
        (2 / 100) =
      (setSoftwareCurrentLimit
          ⟨.IDLE, false, none, 0, 0, "VOLT", false, true, []⟩ (some (1 / 100)),
       some "SAFETY: Requested current exceeds limit") ∧
    checkCurrentLimit
        (setSoftwareCurrentLimit
          ⟨.IDLE, false, none, 0, 0, "VOLT", false, true, []⟩ (some (1 / 100)))
        (1 / 100) = false := by
  have h := software_ceiling_interlock
    ⟨.IDLE, false, none, 0, 0, "VOLT", false, true, []⟩ (1 / 100) (2 / 100)
    (by norm_num) (by decide)
  have h2 := software_ceiling_interlock
    ⟨.IDLE, false, none, 0, 0, "VOLT", false, true, []⟩ (1 / 100) (1 / 100)
    (by norm_num) (by decide)
  exact ⟨(h.1 (by rw [abs_of_pos] <;> norm_num)).1,
         h2.2 (by rw [abs_of_pos] <;> norm_num)⟩

/-- C7: the lazy auto-attach of a second channel cannot succeed.  The
    client's factory call passes an `existing_resource` keyword argument,
    but `create_smu_from_string` (smu_factory.py lines 144-150) declares no
    such parameter, so the call cannot bind and raises TypeError; the
    auto-attach in `_get_controller` therefore raises a RuntimeError
    instead of returning a connected controller sharing the open
    session. -/
theorem second_channel_auto_attach_raises :
    callBindsKwargs createSmuFromStringParams autoAttachCallKwargs = false ∧
    getController
      { controllers := [(1, ⟨.IDLE, false, none, 0, 0, "VOLT", false, true, []⟩)],
        activeChannel := 1, statusConnected := true, statusMock := false,
        statusAddress := "USB0::2391::35864::MY51141849::0::INSTR",
        statusSmuType := "keysight_b2902", statusOutputEnabled := false }
      (some 2) =
    .error ("Channel 2 not connected and auto-connect failed: TypeError: " ++
      "create_smu_from_string() got an unexpected keyword argument " ++
      "existing_resource") :=
  ⟨rfl, rfl⟩

theorem linspace_length (s e : ℚ) : ∀ n : Nat, (linspace s e n).length = n
  | 0 => rfl
  | 1 => rfl
  | _ + 2 => by
    simp only [linspace]
    rw [List.length_map, List.length_range]

/-- C8: a "double" sweep generated from N ≥ 2 forward points commands
    exactly 2N−1 points; point N (1-based, index N−1) is the turnaround
    value (the requested endpoint `stop`), and point 2N−1 equals the
    original start exactly. -/
theorem double_sweep_symmetry (start stop : ℚ) (N : Nat) (hN : 2 ≤ N) :
    (sweepPoints start stop N "forward" "double").length = 2 * N - 1 ∧
    (sweepPoints start stop N "forward" "double").getD (N - 1) 0 = stop ∧
    (sweepPoints start stop N "forward" "double").getD (2 * N - 2) 0 = start := by
  have hb0 : (linspace start stop N).length = N := linspace_length start stop N
  have hb0ne : (linspace start stop N).isEmpty = false := by
    cases hb : linspace start stop N
    · rw [hb] at hb0; simp at hb0; omega
    · simp
  have hlen0 : 0 < (linspace start stop N).length := by rw [hb0]; omega
  have hlow : lowerStr "double" = "double" := rfl
  have hsp : sweepPoints start stop N "forward" "double" =
      setLast ((linspace start stop N).dropLast ++ [stop] ++
        ((linspace start stop N).dropLast ++ [stop]).reverse.drop 1) start := by
    simp [sweepPoints, setLast, hb0ne, hlen0, hlow]
  have hblen : ((linspace start stop N).dropLast ++ [stop]).length = N := by
    rw [List.length_append, List.length_dropLast, hb0]
    simp
    omega
  have hrevlen : (((linspace start stop N).dropLast ++ [stop]).reverse.drop 1).length
      = N - 1 := by
    rw [List.length_drop, List.length_reverse, hblen]
  obtain ⟨a, m, hrev⟩ : ∃ a m,
      ((linspace start stop N).dropLast ++ [stop]).reverse.drop 1 = a :: m := by
    cases hr : ((linspace start stop N).dropLast ++ [stop]).reverse.drop 1
    · rw [hr] at hrevlen; simp at hrevlen; omega
    · exact ⟨_, _, rfl⟩
  have hmlen : m.length = N - 2 := by
    rw [hrev] at hrevlen; simp at hrevlen; omega
  have hdne : ((((linspace start stop N).dropLast ++ [stop]) ++
      ((linspace start stop N).dropLast ++ [stop]).reverse.drop 1)).isEmpty = false := by
    rw [hrev]
    rcases (linspace start stop N).dropLast with _ | ⟨x, xs⟩ <;> simp
  have hdrop : ((((linspace start stop N).dropLast ++ [stop]) ++
      ((linspace start stop N).dropLast ++ [stop]).reverse.drop 1)).dropLast =
      ((linspace start stop N).dropLast ++ [stop]) ++ (a :: m).dropLast := by
    rw [hrev]
    exact List.dropLast_append_cons
  have hfinal : sweepPoints start stop N "forward" "double" =
      (((linspace start stop N).dropLast ++ [stop]) ++ (a :: m).dropLast) ++ [start] := by
    rw [hsp, setLast, if_neg (by rw [hdne]; simp), hdrop]
  have hXlen : (((linspace start stop N).dropLast ++ [stop]) ++ (a :: m).dropLast).length
      = 2 * N - 2 := by
    rw [List.length_append, hblen]
    simp [hmlen]
    omega
  refine ⟨?_, ?_, ?_⟩
  · rw [hfinal, List.length_append, hXlen]
    simp
    omega
  · rw [hfinal]
    rw [List.getD_append _ _ _ _ (by rw [hXlen]; omega)]
    rw [List.getD_append _ _ _ _ (by rw [hblen]; omega)]
    rw [List.getD_append_right _ _ _ _ (by rw [List.length_dropLast, hb0])]
    rw [List.length_dropLast, hb0]
    simp [List.getD]
  · rw [hfinal]
    rw [List.getD_append_right _ _ _ _ (by rw [hXlen])]
    rw [hXlen]
    simp [List.getD]

/-- C8 witness: the double sweep 0→1 V with 3 forward points commands 5
    points; point 3 is the endpoint 1, point 5 is the start 0. -/
theorem double_sweep_symmetry_witness :
    (sweepPoints 0 1 3 "forward" "double").length = 5 ∧
    (sweepPoints 0 1 3 "forward" "double").getD 2 0 = 1 ∧
    (sweepPoints 0 1 3 "forward" "double").getD 4 0 = 0 := by
  have h := double_sweep_symmetry 0 1 3 (by norm_num)
  exact ⟨h.1, h.2.1, h.2.2⟩

/-- A fold over reference names in which every unbound name leaves the
    accumulator unchanged does nothing when no name is bound. -/
theorem foldl_skip_unbound {α : Type} (cap : List (String × PValue))
    (g : α → String → PValue → α) :
    ∀ (names : List String) (acc : α),
      (∀ n ∈ names, capLookup cap n = none) →
      names.foldl (fun a name =>
        match capLookup cap name with
        | some x => g a name x
        | none => a) acc = acc
  | [], _, _ => rfl
  | n :: rest, acc, h => by
    have hn : capLookup cap n = none := h n (by simp)
    have hrest := foldl_skip_unbound cap g rest acc
      (fun m hm => h m (by simp [hm]))
    simpa [List.foldl, hn] using hrest

theorem string_mk_toList (s : String) : String.mk s.toList = s := by
  cases s
  rfl

/-- C9: parameter resolution of `$name` references.  A string value that
    is exactly `$name` for a previously captured identifier `name`
    resolves to the captured value itself (verbatim, original type); a
    value none of whose referenced names (exact, braced or unbraced) is
    captured is left as the literal string, and resolution is total — no
    error is raised. -/
theorem resolve_params_references :
    (∀ (cap : List (String × PValue)) (name : String) (v : PValue),
      (∀ c ∈ name.toList, isWordChar c = true) →
      capLookup cap name = some v →
      resolveStr cap ("$" ++ name) = v) ∧
    (∀ (cap : List (String × PValue)) (value : String),
      (value.toList.headD ' ' = '$' →
        capLookup cap (String.mk (value.toList.drop 1)) = none) →
      (∀ n ∈ findBracedRefs value, capLookup cap n = none) →
      (∀ n ∈ findUnbracedRefs value, capLookup cap n = none) →
      resolveStr cap value = .str value) := by
  constructor
  · intro cap name v hword hcap
    have htl : ("$" ++ name).toList = '$' :: name.toList := by
      simp [String.toList]
    have hnotin : '\x7b' ∉ name.toList := by
      intro hmem
      have hw := hword '\x7b' hmem
      simp [isWordChar] at hw
    have hnb : ("$" ++ name).toList.contains '\x7b' = false := by
      rw [htl]
      simpa using hnotin
    rw [resolveStr, htl] at *
    simp only [List.headD_cons, hnb, List.drop_succ_cons, List.drop_zero] at *
    rw [if_pos (by simp), string_mk_toList, hcap]
  · intro cap value hexact hbraced hunbraced
    have hinterp : interpolate cap value = value := by
      rw [interpolate]
      rw [foldl_skip_unbound cap _ (findBracedRefs value) value hbraced]
      rw [foldl_skip_unbound cap _ (findUnbracedRefs value) value hunbraced]
    rw [resolveStr]
    by_cases h1 : value.toList.headD ' ' == '$' && !(value.toList.contains '\x7b')
    · rw [if_pos h1]
      have hd : value.toList.headD ' ' = '$' := by
        have := (Bool.and_eq_true _ _).mp h1
        exact eq_of_beq this.1
      rw [hexact hd]
      by_cases h2 : value.toList.contains '$'
      · rw [if_pos h2, hinterp]
      · rw [if_neg h2]
    · rw [if_neg h1]
      by_cases h2 : value.toList.contains '$'
      · rw [if_pos h2, hinterp]
      · rw [if_neg h2]

/-- C9 witness: with `iv_data` captured, the exact reference resolves to
    the captured number verbatim; with nothing captured, `$never_set`
    stays the literal string. -/
theorem resolve_params_references_witness :
    resolveStr [("iv_data", PValue.num 42)] "$iv_data" = PValue.num 42 ∧
    resolveStr [] "$never_set" = PValue.str "$never_set" := by
  constructor
  · have h := resolve_params_references.1 [("iv_data", PValue.num 42)] "iv_data"
      (PValue.num 42) (by decide) rfl
    simpa using h
  · exact resolve_params_references.2 [] "$never_set"
      (fun _ => rfl) (fun n _ => rfl) (fun n _ => rfl)

/-- An empty loop-item list yields the failed "No items to iterate"
    result (protocol_engine.py lines 699-700). -/
theorem actionControlLoop_empty (w : EngineWorld) (cap : List (String × PValue))
    (now : Nat) (params : List (String × PValue)) (substeps : List Step)
    (hempty : loopItems params = .ok []) :
    actionControlLoop w cap now params substeps =
      (w, cap, .ok ⟨false, some "No items to iterate", none⟩) := by
  rw [actionControlLoop, hempty]
  simp

/-- A run step that is a loop over no items fails the run. -/
theorem runSteps_loop_empty (w : EngineWorld) (cap : List (String × PValue))
    (now idx total : Nat) (params : List (String × PValue))
    (capAs : Option String) (substeps : List Step)
    (hempty : loopItems (resolveParams cap params) = .ok []) :
    (runSteps w cap now idx total
      [Step.mk "control/loop" params capAs substeps]).2.2.success = false := by
  rw [runSteps]
  by_cases habort : w.rm.abortRequested
  · simp [habort]
  · have hmem : "control/loop" ∈ actionTableKeys := by decide
    rw [execStep]
    simp [habort, hmem, actionControlLoop_empty _ _ _ _ _ hempty]

/-- C10: loop items and the empty-loop guard.  For a positive step, the
    range items are exactly the integers `start + step*k` below `stop`
    (the half-open range); a loop whose item list is empty does not
    succeed with zero iterations — it returns the failed
    `"No items to iterate"` result, and a protocol run containing such a
    loop step ends with `success = false`. -/
theorem loop_range_and_empty_items :
    (∀ (start stop step x : Int), 0 < step →
      (x ∈ pyRange start stop step ↔ ∃ k : ℕ, x = start + step * k ∧ x < stop)) ∧
    (∀ (w : EngineWorld) (cap : List (String × PValue)) (now : Nat)
        (params : List (String × PValue)) (substeps : List Step),
      loopItems params = .ok [] →
      actionControlLoop w cap now params substeps =
        (w, cap, .ok ⟨false, some "No items to iterate", none⟩)) ∧
    (∀ (w : EngineWorld) (now : Nat) (params : List (String × PValue))
        (capAs : Option String) (substeps : List Step),
      loopItems (resolveParams [] params) = .ok [] →
      (runEngine w now [Step.mk "control/loop" params capAs substeps] false).2.success
        = false) := by
  have hlen : ∀ (start stop step : Int) (i : ℕ), 0 < step →
      (i < rangeLen start stop step ↔ i * step.toNat < (stop - start).toNat) := by
    intro start stop step i hstep
    rw [rangeLen, if_pos hstep]
    by_cases hd : (stop - start).toNat = 0
    · simp [hd]
    · rw [if_neg hd, Nat.lt_succ_iff,
        Nat.le_div_iff_mul_le (by omega : 0 < step.toNat)]
      have hgen : ∀ p d : ℕ, d ≠ 0 → (p ≤ d - 1 ↔ p < d) := by
        intro p d h0; omega
      exact hgen _ _ hd
  refine ⟨?_, ?_, ?_⟩
  · intro start stop step x hstep
    have hscast : ((step.toNat : ℕ) : Int) = step :=
      Int.toNat_of_nonneg (le_of_lt hstep)
    constructor
    · intro hx
      rw [pyRange, List.mem_map] at hx
      obtain ⟨i, hi, hfx⟩ := hx
      rw [List.mem_range, hlen start stop step i hstep] at hi
      have hi2 : ((i * step.toNat : ℕ) : Int) < stop - start := Int.lt_toNat.mp hi
      push_cast [hscast] at hi2
      exact ⟨i, hfx.symm, by rw [← hfx]; linarith⟩
    · rintro ⟨k, hxk, hxlt⟩
      have hk : (k * step.toNat : ℕ) < (stop - start).toNat := by
        rw [Int.lt_toNat]
        push_cast [hscast]
        rw [hxk] at hxlt
        linarith
      rw [pyRange, List.mem_map]
      exact ⟨k, List.mem_range.mpr ((hlen start stop step k hstep).mpr hk),
        by rw [hxk]⟩
  · intro w cap now params substeps hempty
    exact actionControlLoop_empty w cap now params substeps hempty
  · intro w now params capAs substeps hempty
    show (runBody w now [Step.mk "control/loop" params capAs substeps]).2.2.success
      = false
    rw [runBody]
    exact runSteps_loop_empty _ [] now 0 _ params capAs substeps hempty

/-- C10 witness: 6 = 0 + 3·2 lies in `range(0, 10, 3)`; a loop over
    `range(2, 2)` returns the failed "No items to iterate" result, and a
    run consisting of that loop step ends with `success = false`. -/
theorem loop_range_and_empty_items_witness :
    ((6 : Int) ∈ pyRange 0 10 3) ∧
    actionControlLoop
      ⟨⟨[], 1, false, false, "", "auto", false⟩,
       ⟨⟨true, 8, []⟩, ⟨true, 8, []⟩, none, none⟩,
       ⟨.IDLE, none, false, none, 0, 0⟩⟩ [] 0
      [("range", PValue.dict [("start", PValue.num 2), ("stop", PValue.num 2)])]
      [] =
      (⟨⟨[], 1, false, false, "", "auto", false⟩,
        ⟨⟨true, 8, []⟩, ⟨true, 8, []⟩, none, none⟩,
        ⟨.IDLE, none, false, none, 0, 0⟩⟩, [],
       .ok ⟨false, some "No items to iterate", none⟩) ∧
    (runEngine
      ⟨⟨[], 1, false, false, "", "auto", false⟩,
       ⟨⟨true, 8, []⟩, ⟨true, 8, []⟩, none, none⟩,
       ⟨.IDLE, none, false, none, 0, 0⟩⟩ 0
      [Step.mk "control/loop"
        [("range", PValue.dict [("start", PValue.num 2), ("stop", PValue.num 2)])]
        none []]
      false).2.success = false := by
  refine ⟨?_, ?_, ?_⟩
  · exact (loop_range_and_empty_items.1 0 10 3 6 (by norm_num)).mpr
      ⟨2, by norm_num, by norm_num⟩
  · exact loop_range_and_empty_items.2.1 _ [] 0 _ [] rfl
  · exact loop_range_and_empty_items.2.2 _ 0 _ none [] rfl

theorem chanLookup_chanUpdate_self {α : Type} (ch : Nat) (v : α) :
    ∀ (l : List (Nat × α)) (c : α), chanLookup l ch = some c →
      chanLookup (chanUpdate l ch v) ch = some v
  | [], c, h => by simp [chanLookup] at h
  | p :: rest, c, h => by
    by_cases hp : p.1 = ch
    · simp [chanLookup, chanUpdate, hp]
    · have h2 : chanLookup rest ch = some c := by
        simpa [chanLookup, hp] using h
      simp only [chanUpdate, if_neg hp, chanLookup]
      exact chanLookup_chanUpdate_self ch v rest c h2

theorem chanLookup_chanUpdate_ne {α : Type} (ch ch' : Nat) (v : α)
    (hne : ch' ≠ ch) :
    ∀ l : List (Nat × α),
      chanLookup (chanUpdate l ch v) ch' = chanLookup l ch'
  | [] => rfl
  | p :: rest => by
    by_cases hp : p.1 = ch
    · subst hp
      have hne2 : ¬ p.1 = ch' := fun hh => hne hh.symm
      simp [chanLookup, chanUpdate, hne2]
    · simp only [chanUpdate, if_neg hp, chanLookup]
      by_cases hp' : p.1 = ch'
      · simp [hp']
      · simp only [hp', if_false, if_neg hp']
        exact chanLookup_chanUpdate_ne ch ch' v hne rest

/-- C4 (amended): for every protocol run with cleanup not skipped, the
    run returns the body's result and applies the safety cleanup to the
    body's final state, whatever the outcome; the cleanup opens every
    relay on both connected boards — even when the SMU output-disable
    fails — and issues a single no-channel output-disable through the
    client, which disables the output of the client's *active* channel
    (when that channel holds a mock or wire-healthy controller) and
    leaves every other channel's controller untouched. -/
theorem run_safety_cleanup :
    (∀ (w : EngineWorld) (now : Nat) (steps : List Step),
      runEngine w now steps false =
        ({ performSafetyCleanup (runBody w now steps).1 with
            rm := ((performSafetyCleanup (runBody w now steps).1).rm.complete now).1 },
         (runBody w now steps).2.2)) ∧
    (∀ w : EngineWorld,
      w.relays.pixel.connected = true → w.relays.rgb.connected = true →
      (performSafetyCleanup w).relays.pixel.statesOn = [] ∧
      (performSafetyCleanup w).relays.rgb.statesOn = []) ∧
    (∀ (w : EngineWorld) (c : Driver),
      chanLookup w.client.controllers w.client.activeChannel = some c →
      (c.mock = true ∨ c.wireOk = true) →
      chanLookup (performSafetyCleanup w).client.controllers
          w.client.activeChannel = some (B2902.disableOutput c).1 ∧
      (B2902.disableOutput c).1.outputEnabled = false) ∧
    (∀ (w : EngineWorld) (ch : Nat),
      ch ≠ w.client.activeChannel →
      chanLookup (performSafetyCleanup w).client.controllers ch =
        chanLookup w.client.controllers ch) := by
  refine ⟨?_, ?_, ?_, ?_⟩
  · intro w now steps
    rfl
  · intro w hp hr
    simp [performSafetyCleanup, RelayController.allOff, RelayBoard.allOff, hp, hr]
  · intro w c hc hok
    have hdis : (B2902.disableOutput c).1.outputEnabled = false := by
      rcases hok with hm | hk
      · simp [B2902.disableOutput, hm]
      · by_cases hm : c.mock = true
        · simp [B2902.disableOutput, hm]
        · simp [B2902.disableOutput, hm, hk]
    refine ⟨?_, hdis⟩
    simp only [performSafetyCleanup, outputControl, getController, Option.getD]
    rw [hc]
    rcases hres : (B2902.disableOutput c).2 with _ | e <;>
      simp [hres, RelayController.allOff,
        chanLookup_chanUpdate_self w.client.activeChannel _ _ c hc]
  · intro w ch hne
    simp only [performSafetyCleanup, outputControl, getController, Option.getD]
    rcases hc : chanLookup w.client.controllers w.client.activeChannel with _ | c
    · have hbind : callBindsKwargs createSmuFromStringParams autoAttachCallKwargs
          = false := rfl
      by_cases hcond : w.client.statusConnected = true ∧
          w.client.statusSmuType = "keysight_b2902"
      · simp [hcond, hbind, RelayController.allOff]
      · simp [hcond, RelayController.allOff]
    · rcases hres : (B2902.disableOutput c).2 with _ | e <;>
        simp [hres, RelayController.allOff,
          chanLookup_chanUpdate_ne w.client.activeChannel ch _ hne]

/-- C4 witness: in a two-channel world the cleanup disables the active
    channel 1 and opens the relays, leaving channel 2 untouched. -/
theorem run_safety_cleanup_witness :
    chanLookup (performSafetyCleanup
      ⟨⟨[(1, ⟨.RUNNING, true, none, 0, 0, "VOLT", true, true, []⟩),
         (2, ⟨.RUNNING, true, none, 0, 0, "VOLT", true, true, []⟩)],
        1, true, true, "addr", "keysight_b2902", true⟩,
       ⟨⟨true, 8, [3]⟩, ⟨true, 8, [1]⟩, some 3, some 1⟩,
       ⟨.RUNNING, some 0, false, none, 0, 0⟩⟩).client.controllers 1 =
      some ⟨.IDLE, true, none, 0, 0, "VOLT", false, true, []⟩ ∧
    (performSafetyCleanup
      ⟨⟨[(1, ⟨.RUNNING, true, none, 0, 0, "VOLT", true, true, []⟩),
         (2, ⟨.RUNNING, true, none, 0, 0, "VOLT", true, true, []⟩)],
        1, true, true, "addr", "keysight_b2902", true⟩,
       ⟨⟨true, 8, [3]⟩, ⟨true, 8, [1]⟩, some 3, some 1⟩,
       ⟨.RUNNING, some 0, false, none, 0, 0⟩⟩).relays.pixel.statesOn = [] := by
  constructor
  · exact (run_safety_cleanup.2.2.1
      ⟨⟨[(1, ⟨.RUNNING, true, none, 0, 0, "VOLT", true, true, []⟩),
         (2, ⟨.RUNNING, true, none, 0, 0, "VOLT", true, true, []⟩)],
        1, true, true, "addr", "keysight_b2902", true⟩,
       ⟨⟨true, 8, [3]⟩, ⟨true, 8, [1]⟩, some 3, some 1⟩,
       ⟨.RUNNING, some 0, false, none, 0, 0⟩⟩
      ⟨.RUNNING, true, none, 0, 0, "VOLT", true, true, []⟩ rfl (Or.inl rfl)).1
  · exact (run_safety_cleanup.2.1
      ⟨⟨[(1, ⟨.RUNNING, true, none, 0, 0, "VOLT", true, true, []⟩),
         (2, ⟨.RUNNING, true, none, 0, 0, "VOLT", true, true, []⟩)],
        1, true, true, "addr", "keysight_b2902", true⟩,
       ⟨⟨true, 8, [3]⟩, ⟨true, 8, [1]⟩, some 3, some 1⟩,
       ⟨.RUNNING, some 0, false, none, 0, 0⟩⟩ rfl rfl).1

/-- C4 counterexample: the claim says the cleanup disables *every*
    channel's output, but a successful empty run over a two-channel world
    with both outputs enabled ends with channel 2 still enabled (only the
    active channel 1 is disabled, and the relays are opened). -/
theorem cleanup_misses_second_channel :
    ((chanLookup (runEngine
      ⟨⟨[(1, ⟨.RUNNING, true, none, 0, 0, "VOLT", true, true, []⟩),
         (2, ⟨.RUNNING, true, none, 0, 0, "VOLT", true, true, []⟩)],
        1, true, true, "addr", "keysight_b2902", true⟩,
       ⟨⟨true, 8, [3]⟩, ⟨true, 8, [1]⟩, some 3, some 1⟩,
       ⟨.IDLE, none, false, none, 0, 0⟩⟩ 0 [] false).1.client.controllers 2).map
        Driver.outputEnabled = some true) ∧
    ((chanLookup (runEngine
      ⟨⟨[(1, ⟨.RUNNING, true, none, 0, 0, "VOLT", true, true, []⟩),
         (2, ⟨.RUNNING, true, none, 0, 0, "VOLT", true, true, []⟩)],
        1, true, true, "addr", "keysight_b2902", true⟩,
       ⟨⟨true, 8, [3]⟩, ⟨true, 8, [1]⟩, some 3, some 1⟩,
       ⟨.IDLE, none, false, none, 0, 0⟩⟩ 0 [] false).1.client.controllers 1).map
        Driver.outputEnabled = some false) ∧
    (runEngine
      ⟨⟨[(1, ⟨.RUNNING, true, none, 0, 0, "VOLT", true, true, []⟩),
         (2, ⟨.RUNNING, true, none, 0, 0, "VOLT", true, true, []⟩)],
        1, true, true, "addr", "keysight_b2902", true⟩,
       ⟨⟨true, 8, [3]⟩, ⟨true, 8, [1]⟩, some 3, some 1⟩,
       ⟨.IDLE, none, false, none, 0, 0⟩⟩ 0 [] false).2.success = true := by
  refine ⟨rfl, rfl, rfl⟩

end IVTest
